import Mathlib

/-!
Shallow embedding of the mint-status-gated transaction workflow of the
pm-trader-art repository (frontend/js/web3/wallet-connection.js and
legacy/web/static/js/app.js), together with theorems settling the
specification claims about it.

JavaScript strings are modelled as lists of characters (`JSString`), the
`String.prototype.slice` builtin as `jsSlice` with its real negative-index
and clamping semantics, and each class as a structure holding the fields
its methods read and write.
-/

/-- A JavaScript string, modelled as its sequence of characters. -/
abbrev JSString := List Char

/-- JavaScript `String.prototype.slice(start, stop)`: negative indices count
from the end of the string, and both endpoints are clamped to `[0, length]`.
`stop = none` models an omitted second argument. -/
def jsSlice (s : JSString) (start : Int) (stop : Option Int) : JSString :=
  let len : Int := s.length
  let b : Int := if start < 0 then max (len + start) 0 else min start len
  let e : Int :=
    match stop with
    | none => len
    | some e0 => if e0 < 0 then max (len + e0) 0 else min e0 len
  (s.take e.toNat).drop b.toNat

/-- JavaScript `String.prototype.toLowerCase`, restricted to the characters
occurring in hexadecimal account addresses. -/
def toLowerCase (s : JSString) : JSString := s.map Char.toLower

/-- `MandalaApp.formatAddress` (legacy/web/static/js/app.js): returns the
address unchanged when it is null, empty or shorter than 10 characters,
otherwise `slice(0, 6) + "..." + slice(-4)`. -/
def MandalaApp.formatAddress (address : Option JSString) : Option JSString :=
  match address with
  | none => none
  | some s =>
    if s.isEmpty || decide (s.length < 10) then some s
    else some (jsSlice s 0 (some 6) ++ "...".data ++ jsSlice s (-4) none)

/-- The fixed target network chain id `'0x13882'` (Polygon Amoy) from the
`targetNetwork` constant of `WalletConnection`. -/
def targetChainId : JSString := "0x13882".data

/-- The mutable fields of the `WalletConnection` class that its methods read
and write (`isConnected`, `currentAccount`, `chainId`, and whether the stored
`provider` reference is non-null). -/
structure WalletConnection where
  isConnected : Bool
  currentAccount : Option JSString
  chainId : Option JSString
  provider : Bool
deriving DecidableEq, Repr

/-- `WalletConnection.formatAddress` (frontend wallet-connection.js): returns
the empty string when the address is null or empty, otherwise
`slice(0, 6) + "..." + slice(-4)` with no minimum-length guard. -/
def WalletConnection.formatAddress (address : Option JSString) : JSString :=
  match address with
  | none => []
  | some s =>
    if s.isEmpty then []
    else jsSlice s 0 (some 6) ++ "...".data ++ jsSlice s (-4) none

/-- `WalletConnection.isOnCorrectNetwork`: strict equality of the stored
chain id against the target network's chain id. -/
def WalletConnection.isOnCorrectNetwork (self : WalletConnection) : Bool :=
  decide (self.chainId = some targetChainId)

/-- `WalletConnection.canUserMint(traderAddress)`: connected, truthy current
account — the `this.currentAccount &&` test excludes the empty string as
well as null — case-insensitive account equality, and correct network. -/
def WalletConnection.canUserMint (self : WalletConnection) (traderAddress : JSString) : Bool :=
  self.isConnected &&
    (match self.currentAccount with
     | none => false
     | some acc =>
       !acc.isEmpty && decide (toLowerCase acc = toLowerCase traderAddress)) &&
    self.isOnCorrectNetwork

/-- An action the wallet session issues against the host provider while
ensuring the correct network. -/
inductive NetAction
  | switchRequest
  | addRequest
deriving DecidableEq, Repr

/-- Outcome of a single provider RPC request: success, or a thrown error
carrying a numeric code. -/
inductive RpcOutcome
  | ok
  | err (code : Int)
deriving DecidableEq, Repr

/-- Host-provider responses consumed by `ensureCorrectNetwork`: the chain id
reported by `eth_chainId`, and the outcomes of the switch-chain and
add-chain requests should they be issued. -/
structure NetEnv where
  currentChainId : JSString
  switchResult : RpcOutcome
  addResult : RpcOutcome
deriving Repr

/-- `WalletConnection.ensureCorrectNetwork`: returns false if no provider is
stored; returns true at once when already on the target chain; otherwise
requests `wallet_switchEthereumChain`, and on a thrown error with the
distinguished code 4902 requests `wallet_addEthereumChain` instead of
retrying the switch; any other switch error fails. The returned list records
the provider requests issued, in order. -/
def WalletConnection.ensureCorrectNetwork (self : WalletConnection) (env : NetEnv) :
    Bool × List NetAction :=
  if !self.provider then (false, [])
  else if env.currentChainId = targetChainId then (true, [])
  else
    match env.switchResult with
    | .ok => (true, [.switchRequest])
    | .err code =>
      if code = 4902 then
        match env.addResult with
        | .ok => (true, [.switchRequest, .addRequest])
        | .err _ => (false, [.switchRequest, .addRequest])
      else (false, [.switchRequest])

/-- `WalletConnection.disconnectWallet`: unconditionally clears the session,
including the stored provider reference. -/
def WalletConnection.disconnectWallet (_self : WalletConnection) : WalletConnection :=
  { isConnected := false, currentAccount := none, chainId := none, provider := false }

/-- `WalletConnection.handleAccountsChanged(accounts)`: an empty account list
disconnects; otherwise the first account becomes current, the session is
marked connected, and the chain id is refreshed from the provider. -/
def WalletConnection.handleAccountsChanged (self : WalletConnection)
    (accounts : List JSString) (chainIdResp : JSString) : WalletConnection :=
  match accounts with
  | [] => self.disconnectWallet
  | a :: _ =>
    { self with currentAccount := some a, isConnected := true, chainId := some chainIdResp }

/-- Host-environment responses consumed by `connectWallet`: whether
`window.ethereum` is defined, the result of the `eth_requestAccounts`
request (a thrown error code, or the account list), the chain id reported by
`eth_chainId`, and the responses used by the nested `ensureCorrectNetwork`
call. -/
structure HostEnv where
  ethereumPresent : Bool
  requestAccounts : Except Int (List JSString)
  chainIdResp : JSString
  netEnv : NetEnv
deriving Repr

/-- Result of a `connectWallet` call: its boolean return value, whether an
error message was surfaced to the user, and the session state it leaves
behind. -/
structure ConnectResult where
  success : Bool
  errorShown : Bool
  state : WalletConnection
deriving Repr

/-- `WalletConnection.connectWallet`: shows an install-MetaMask error when
`window.ethereum` is undefined; otherwise calls `this.provider.request` —
which throws a TypeError caught by the surrounding handler when the stored
provider reference is null — then on a non-empty account list runs
`handleAccountsChanged` and `ensureCorrectNetwork` and returns true. -/
def WalletConnection.connectWallet (self : WalletConnection) (env : HostEnv) : ConnectResult :=
  if !env.ethereumPresent then ⟨false, true, self⟩
  else if !self.provider then ⟨false, true, self⟩
  else
    match env.requestAccounts with
    | .error _ => ⟨false, true, self⟩
    | .ok [] => ⟨false, false, self⟩
    | .ok (a :: rest) =>
      let s1 := self.handleAccountsChanged (a :: rest) env.chainIdResp
      let net := s1.ensureCorrectNetwork env.netEnv
      ⟨true, !net.1, s1⟩

/-- The `maxAttempts` constant of `waitForTransactionConfirmation`
(60 polls at 5-second intervals, the 5-minute ceiling). -/
def NFTMinting.maxAttempts : Nat := 60

/-- The parsed body of one `/api/nft/transaction-status` response:
its `status` field, with the `token_id` accompanying a confirmed status.
`other` stands for any status string distinct from the three known ones. -/
inductive TxStatusResp
  | confirmed (tokenId : Option Nat)
  | failed
  | pending
  | other
deriving DecidableEq, Repr

/-- One polling attempt's interaction with the status endpoint: a parsed
response, or a thrown fetch/parse error (network blip). -/
inductive FetchResult
  | ok (data : TxStatusResp)
  | fetchError
deriving DecidableEq, Repr

/-- The kind of error with which the polling loop finally gives up:
the rethrown failure message of a `failed` status, the rethrown
`'Transaction timeout'`, or a rethrown fetch error. -/
inductive PollError
  | statusFailed
  | timeout
  | fetchFailed
deriving DecidableEq, Repr

/-- Terminal result of the polling loop: the success path invoked with the
returned token id at some attempt, or an error escaping `checkStatus` at
some attempt. -/
inductive PollResult
  | confirmed (tokenId : Option Nat) (attempt : Nat)
  | errored (e : PollError) (attempt : Nat)
deriving DecidableEq, Repr

/-- How a `checkStatus` attempt resolves when no further attempt is
scheduled: a confirmed response succeeds; a `failed` status rethrows its
error; `pending` and unknown statuses rethrow `'Transaction timeout'`; a
fetch error is rethrown as-is. -/
def NFTMinting.resolveAttempt : FetchResult → Nat → PollResult
  | .ok (.confirmed tid), a => .confirmed tid a
  | .ok .failed, a => .errored .statusFailed a
  | .ok .pending, a => .errored .timeout a
  | .ok .other, a => .errored .timeout a
  | .fetchError, a => .errored .fetchFailed a

/-- The recursive `checkStatus` closure of `waitForTransactionConfirmation`,
with the environment's successive endpoint interactions given by `r`
(indexed by 1-based attempt number) and `attempts` the counter value before
the current attempt increments it. On a confirmed response the loop stops in
success; on every other response — `failed` (whose thrown error the
surrounding `catch` intercepts), `pending`, an unknown status (whose thrown
timeout the `catch` intercepts) and a fetch error alike — another attempt is
scheduled while `attempts < maxAttempts`, and otherwise the attempt's error
is rethrown. The structural `fuel` argument realises the
`attempts < maxAttempts` bound: the wrapper `checkStatusAt` instantiates it
with exactly the number of further attempts the bound admits. -/
def NFTMinting.checkStatusGo (r : Nat → FetchResult) (attempts : Nat) :
    Nat → PollResult
  | 0 => NFTMinting.resolveAttempt (r (attempts + 1)) (attempts + 1)
  | fuel + 1 =>
    match r (attempts + 1) with
    | .ok (.confirmed tid) => .confirmed tid (attempts + 1)
    | _ => NFTMinting.checkStatusGo r (attempts + 1) fuel

/-- `checkStatus` started with the counter at `attempts`: the bound permits
`maxAttempts - attempts` attempts in all, the last of which resolves
without scheduling a successor. -/
def NFTMinting.checkStatusAt (r : Nat → FetchResult) (attempts : Nat) : PollResult :=
  NFTMinting.checkStatusGo r attempts (NFTMinting.maxAttempts - attempts - 1)

/-- `waitForTransactionConfirmation`'s polling loop from a fresh counter. -/
def NFTMinting.checkStatus (r : Nat → FetchResult) : PollResult :=
  NFTMinting.checkStatusAt r 0

/-- The mutable field of the `NFTMinting` class that the mint workflow
reads and writes. -/
structure NFTMinting where
  isMinting : Bool
deriving DecidableEq, Repr

/-- The parsed body of the `/api/nft/prepare-mint` response consumed by
`mintNFT`: a thrown fetch/parse error, or a body whose `success` flag the
code inspects (the prepared transaction and gas estimate are opaque here). -/
inductive PrepareResult
  | fetchError
  | response (success : Bool)
deriving DecidableEq, Repr

/-- The result of `executeTransaction`: a thrown error (user rejection or
submission failure), or the value returned by `eth_sendTransaction`, kept
optional because `mintNFT` re-tests its truthiness. -/
inductive SubmitResult
  | thrown
  | hash (h : Option JSString)
deriving DecidableEq, Repr

/-- External collaborators of one `mintNFT` run: the global
`window.walletConnection` (possibly undefined), the trader address argument,
and the responses of the prepare endpoint, the confirmation modal, the
wallet submission and the status-polling endpoint. -/
structure MintEnv where
  wallet : Option WalletConnection
  trader : JSString
  prepare : PrepareResult
  userConfirms : Bool
  submit : SubmitResult
  pollResponses : Nat → FetchResult

/-- An externally visible step of the mint workflow: the prepare-mint
request, the confirmation prompt, the wallet signature-and-broadcast request
(`executeTransaction` / `eth_sendTransaction`), and entry into the
confirmation-polling loop. -/
inductive MintAction
  | prepareRequest
  | confirmPrompt
  | submitTx
  | pollStatus
deriving DecidableEq, Repr

/-- How one `mintNFT` call ends: `busy` is the silent early return while a
mint is already in flight; `jsError` the uncaught TypeError on an undefined
`window.walletConnection`; `notConnected` and `notOwner` the two guard
toasts; `prepFailed` and `submitFailed` the caught errors surfaced as a
failure toast; `cancelled` the silent return to idle after the user declines
the confirmation; `noHash` a falsy transaction hash skipping the poll; and
`polled` carries the polling loop's terminal result. -/
inductive MintOutcome
  | busy
  | jsError
  | notConnected
  | notOwner
  | prepFailed
  | cancelled
  | submitFailed
  | noHash
  | polled (res : PollResult)
deriving DecidableEq, Repr

/-- Result of one `mintNFT` call: the `NFTMinting` state left behind, the
externally visible actions performed in order, and the outcome. -/
structure MintResult where
  state : NFTMinting
  actions : List MintAction
  outcome : MintOutcome
deriving DecidableEq, Repr

/-- `NFTMinting.mintNFT(traderAddress)`: returns at once while `isMinting`;
rejects when the wallet is not connected or `canUserMint` fails; otherwise
sets `isMinting`, requests the prepared transaction, shows the confirmation
modal, and on confirmation submits through the wallet and polls for
confirmation; the `finally` clause clears `isMinting` on every path that
set it. -/
def NFTMinting.mintNFT (self : NFTMinting) (env : MintEnv) : MintResult :=
  if self.isMinting then ⟨self, [], .busy⟩
  else
    match env.wallet with
    | none => ⟨self, [], .jsError⟩
    | some w =>
      if !w.isConnected then ⟨self, [], .notConnected⟩
      else if !w.canUserMint env.trader then ⟨self, [], .notOwner⟩
      else
        match env.prepare with
        | .fetchError => ⟨⟨false⟩, [.prepareRequest], .prepFailed⟩
        | .response false => ⟨⟨false⟩, [.prepareRequest], .prepFailed⟩
        | .response true =>
          if !env.userConfirms then
            ⟨⟨false⟩, [.prepareRequest, .confirmPrompt], .cancelled⟩
          else
            match env.submit with
            | .thrown =>
              ⟨⟨false⟩, [.prepareRequest, .confirmPrompt, .submitTx], .submitFailed⟩
            | .hash none =>
              ⟨⟨false⟩, [.prepareRequest, .confirmPrompt, .submitTx], .noHash⟩
            | .hash (some _) =>
              ⟨⟨false⟩, [.prepareRequest, .confirmPrompt, .submitTx, .pollStatus],
                .polled (NFTMinting.checkStatus env.pollResponses)⟩

/-- The parsed body of a `/api/nft/mint-status/{address}` response. -/
structure MintStatusData where
  has_minted : Bool
  token_id : Option Nat
  estimated_cost : Option JSString

/-- The text `updateMintButton` writes on the mint button. -/
inductive ButtonText
  | alreadyMinted
  | connectToMint
  | onlyOwn
  | mintNow
deriving DecidableEq, Repr

/-- The mint button attributes `updateMintButton` sets. -/
structure ButtonState where
  text : ButtonText
  disabled : Bool
deriving DecidableEq, Repr

/-- `NFTMinting.updateMintButton(traderAddress, mintStatus)`: an
already-minted status disables the button unconditionally and first;
otherwise a missing `window.walletConnection` throws (modelled as `none`),
a disconnected wallet or a failing `canUserMint` disables it with the
corresponding message, and only the eligible case enables it. -/
def NFTMinting.updateMintButton (wallet : Option WalletConnection)
    (trader : JSString) (ms : MintStatusData) : Option ButtonState :=
  let canMint :=
    match wallet with
    | none => false
    | some w => w.canUserMint trader
  if ms.has_minted then some ⟨.alreadyMinted, true⟩
  else
    match wallet with
    | none => none
    | some w =>
      if !w.isConnected then some ⟨.connectToMint, true⟩
      else if !canMint then some ⟨.onlyOwn, true⟩
      else some ⟨.mintNow, false⟩

/-- Modelled from the spec: the wiring of the mint button's click to
`mintNFT` lives outside the provided sources (only the button element id and
`updateMintButton` are present). Per the spec's UI gating — the four display
states of the mint-status service, of which already-minted is terminal and
disabled — a disabled button dispatches no click, so a click starts the mint
workflow only when the button rendered by `updateMintButton` is enabled. -/
def NFTMinting.mintButtonClick (btn : Option ButtonState) (self : NFTMinting)
    (env : MintEnv) : List MintAction :=
  match btn with
  | none => []
  | some b => if b.disabled then [] else (self.mintNFT env).actions

theorem NFTMinting.checkStatusAt_last (r : Nat → FetchResult) :
    NFTMinting.checkStatusAt r 59 = NFTMinting.resolveAttempt (r 60) 60 := rfl

theorem NFTMinting.checkStatusAt_skip (r : Nat → FetchResult) (a : Nat)
    (hlt : a + 1 < NFTMinting.maxAttempts)
    (hnc : ∀ tid, r (a + 1) ≠ FetchResult.ok (TxStatusResp.confirmed tid)) :
    NFTMinting.checkStatusAt r a = NFTMinting.checkStatusAt r (a + 1) := by
  have hfuel : NFTMinting.maxAttempts - a - 1 =
      (NFTMinting.maxAttempts - (a + 1) - 1) + 1 := by
    simp only [NFTMinting.maxAttempts] at hlt ⊢
    omega
  unfold NFTMinting.checkStatusAt
  rw [hfuel]
  cases hr : r (a + 1) with
  | ok data =>
    cases data with
    | confirmed tid => exact absurd hr (hnc tid)
    | failed => simp [NFTMinting.checkStatusGo, hr]
    | pending => simp [NFTMinting.checkStatusGo, hr]
    | other => simp [NFTMinting.checkStatusGo, hr]
  | fetchError => simp [NFTMinting.checkStatusGo, hr]

theorem NFTMinting.checkStatusAt_run (r : Nat → FetchResult) :
    ∀ (d a : Nat), a + d ≤ 59 →
      (∀ n, a < n → n ≤ a + d → ∀ tid, r n ≠ FetchResult.ok (TxStatusResp.confirmed tid)) →
      NFTMinting.checkStatusAt r a = NFTMinting.checkStatusAt r (a + d) := by
  intro d
  induction d with
  | zero => intro a _ _; rfl
  | succ d ih =>
    intro a hle hnc
    have hstep : NFTMinting.checkStatusAt r a = NFTMinting.checkStatusAt r (a + 1) := by
      refine NFTMinting.checkStatusAt_skip r a ?_ ?_
      · simp only [NFTMinting.maxAttempts]; omega
      · exact fun tid => hnc (a + 1) (by omega) (by omega) tid
    have htail := ih (a + 1) (by omega)
      (fun n h1 h2 tid => hnc n (by omega) (by omega) tid)
    rw [hstep, htail]
    congr 1
    omega

/-- Claim C1: in the polling loop of the mint workflow, a status endpoint
answering `pending` on each of the first 59 attempts and `confirmed` on the
60th ends the workflow in the Confirmed state, with the success path invoked
with the returned token id on exactly attempt 60; a status endpoint
answering `pending` on all of the first 60 attempts ends the workflow in the
TimedOut state at attempt 60, and — the responses beyond attempt 60 being
unconstrained — no 61st fetch is made. -/
theorem NFTMinting.polling_pending_then_confirmed_C1
    (r1 r2 : Nat → FetchResult) (tid : Option Nat)
    (h1p : ∀ n, 1 ≤ n → n ≤ 59 → r1 n = FetchResult.ok TxStatusResp.pending)
    (h1c : r1 60 = FetchResult.ok (TxStatusResp.confirmed tid))
    (h2p : ∀ n, 1 ≤ n → n ≤ 60 → r2 n = FetchResult.ok TxStatusResp.pending) :
    NFTMinting.checkStatus r1 = PollResult.confirmed tid 60 ∧
    NFTMinting.checkStatus r2 = PollResult.errored PollError.timeout 60 := by
  constructor
  · have hrun := NFTMinting.checkStatusAt_run r1 59 0 (by omega)
      (fun n h1 h2 tid' => by rw [h1p n (by omega) (by omega)]; simp)
    unfold NFTMinting.checkStatus
    rw [hrun]
    have : (0 : Nat) + 59 = 59 := by omega
    rw [this, NFTMinting.checkStatusAt_last, h1c]
    rfl
  · have hrun := NFTMinting.checkStatusAt_run r2 59 0 (by omega)
      (fun n h1 h2 tid' => by rw [h2p n (by omega) (by omega)]; simp)
    unfold NFTMinting.checkStatus
    rw [hrun]
    have : (0 : Nat) + 59 = 59 := by omega
    rw [this, NFTMinting.checkStatusAt_last, h2p 60 (by omega) (by omega)]
    rfl

theorem NFTMinting.polling_pending_then_confirmed_C1_witness :
    NFTMinting.checkStatus
        (fun n => if n ≤ 59 then FetchResult.ok TxStatusResp.pending
                  else FetchResult.ok (TxStatusResp.confirmed (some 7))) =
      PollResult.confirmed (some 7) 60 ∧
    NFTMinting.checkStatus (fun _ => FetchResult.ok TxStatusResp.pending) =
      PollResult.errored PollError.timeout 60 :=
  NFTMinting.polling_pending_then_confirmed_C1 _ _ (some 7)
    (fun n _ h2 => by rw [if_pos h2])
    (by norm_num)
    (fun n _ _ => rfl)

/-- Claim C2 concerns a divergence between code and spec: when the status
endpoint answers `failed` on attempt 1 with attempts remaining, the error
thrown inside `checkStatus`'s `try` block is intercepted by that very
attempt's `catch`, which schedules another attempt instead of terminating;
here the loop then even ends Confirmed on attempt 2, so the workflow did not
transition to the terminal Failed state on the attempt that reported
`failed`. -/
theorem NFTMinting.polling_failed_status_swallowed_C2 :
    NFTMinting.checkStatus
        (fun n => if n = 1 then FetchResult.ok TxStatusResp.failed
                  else FetchResult.ok (TxStatusResp.confirmed (some 5))) =
      PollResult.confirmed (some 5) 2 ∧
    NFTMinting.checkStatus
        (fun n => if n = 1 then FetchResult.ok TxStatusResp.failed
                  else FetchResult.ok (TxStatusResp.confirmed (some 5))) ≠
      PollResult.errored PollError.statusFailed 1 := by
  constructor
  · decide
  · decide

/-- Claim C3: a fetch error during a polling attempt does not by itself end
the workflow: while attempts remain the loop continues exactly as if one
more attempt had been exhausted, and only on the final (60th) attempt does
the errored attempt end the workflow, with the fetch error rethrown. -/
theorem NFTMinting.polling_fetch_error_consumes_attempt_C3
    (r : Nat → FetchResult) (a : Nat)
    (herr : r (a + 1) = FetchResult.fetchError) :
    (a + 1 < NFTMinting.maxAttempts →
      NFTMinting.checkStatusAt r a = NFTMinting.checkStatusAt r (a + 1)) ∧
    (a + 1 = NFTMinting.maxAttempts →
      NFTMinting.checkStatusAt r a =
        PollResult.errored PollError.fetchFailed NFTMinting.maxAttempts) := by
  constructor
  · intro hlt
    exact NFTMinting.checkStatusAt_skip r a hlt (fun tid => by rw [herr]; simp)
  · intro heq
    have ha : a = 59 := by simp only [NFTMinting.maxAttempts] at heq; omega
    subst ha
    rw [NFTMinting.checkStatusAt_last, herr]
    rfl

theorem NFTMinting.polling_fetch_error_consumes_attempt_C3_witness :
    NFTMinting.checkStatusAt (fun _ => FetchResult.fetchError) 0 =
      NFTMinting.checkStatusAt (fun _ => FetchResult.fetchError) 1 ∧
    NFTMinting.checkStatusAt (fun _ => FetchResult.fetchError) 59 =
      PollResult.errored PollError.fetchFailed NFTMinting.maxAttempts :=
  ⟨(NFTMinting.polling_fetch_error_consumes_attempt_C3 _ 0 rfl).1 (by decide),
   (NFTMinting.polling_fetch_error_consumes_attempt_C3 _ 59 rfl).2 rfl⟩

/-- Claim C4: while `isMinting` is true, a further `mintNFT` call returns at
once with no side effects — no prepare request, no confirmation prompt, no
transaction submission, an empty action list, and the workflow state (in
particular `isMinting`) unchanged. -/
theorem NFTMinting.mintNFT_busy_guard_C4 (self : NFTMinting) (env : MintEnv)
    (h : self.isMinting = true) :
    NFTMinting.mintNFT self env = ⟨self, [], MintOutcome.busy⟩ := by
  unfold NFTMinting.mintNFT
  rw [h]
  simp

theorem NFTMinting.mintNFT_busy_guard_C4_witness :
    NFTMinting.mintNFT ⟨true⟩
        ⟨none, [], PrepareResult.fetchError, false, SubmitResult.thrown,
          fun _ => FetchResult.fetchError⟩ =
      ⟨⟨true⟩, [], MintOutcome.busy⟩ :=
  NFTMinting.mintNFT_busy_guard_C4 ⟨true⟩ _ rfl

/-- Claim C5: when the most recently fetched mint status reports
`has_minted`, `updateMintButton` renders the mint button disabled (first and
unconditionally), and — the click wiring being modelled from the spec's UI
gating — a click on the disabled button performs no workflow action at all:
in particular neither the wallet signature request nor the transaction
broadcast ever happens. -/
theorem NFTMinting.minted_status_blocks_submission_C5
    (wallet : Option WalletConnection) (trader : JSString) (ms : MintStatusData)
    (self : NFTMinting) (env : MintEnv)
    (h : ms.has_minted = true) :
    NFTMinting.updateMintButton wallet trader ms =
      some ⟨ButtonText.alreadyMinted, true⟩ ∧
    NFTMinting.mintButtonClick (NFTMinting.updateMintButton wallet trader ms) self env =
      [] := by
  have hbtn : NFTMinting.updateMintButton wallet trader ms =
      some ⟨ButtonText.alreadyMinted, true⟩ := by
    unfold NFTMinting.updateMintButton
    rw [h]
    simp
  exact ⟨hbtn, by rw [hbtn]; rfl⟩

theorem NFTMinting.minted_status_blocks_submission_C5_witness :
    NFTMinting.updateMintButton
        (some ⟨true, some "0xab".data, some targetChainId, true⟩)
        "0xab".data ⟨true, some 3, none⟩ =
      some ⟨ButtonText.alreadyMinted, true⟩ ∧
    NFTMinting.mintButtonClick
        (NFTMinting.updateMintButton
          (some ⟨true, some "0xab".data, some targetChainId, true⟩)
          "0xab".data ⟨true, some 3, none⟩)
        ⟨false⟩
        ⟨some ⟨true, some "0xab".data, some targetChainId, true⟩, "0xab".data,
          PrepareResult.response true, true, SubmitResult.hash (some "0xh".data),
          fun _ => FetchResult.ok (TxStatusResp.confirmed (some 3))⟩ =
      [] :=
  NFTMinting.minted_status_blocks_submission_C5 _ _ _ _ _ rfl

/-- Claim C6: when the user declines the confirmation modal, the mint
workflow returns to Idle rather than Failed: the prepare request and the
confirmation prompt have happened, no transaction submission is ever
invoked, `isMinting` is reset to false, and the outcome is the silent
cancellation, not an error. -/
theorem NFTMinting.decline_confirmation_idle_C6
    (self : NFTMinting) (env : MintEnv) (w : WalletConnection)
    (hidle : self.isMinting = false)
    (hw : env.wallet = some w)
    (hconn : w.isConnected = true)
    (hcan : w.canUserMint env.trader = true)
    (hprep : env.prepare = PrepareResult.response true)
    (hdecl : env.userConfirms = false) :
    NFTMinting.mintNFT self env =
      ⟨⟨false⟩, [MintAction.prepareRequest, MintAction.confirmPrompt],
        MintOutcome.cancelled⟩ ∧
    (NFTMinting.mintNFT self env).actions.count MintAction.submitTx = 0 := by
  have hmain : NFTMinting.mintNFT self env =
      ⟨⟨false⟩, [MintAction.prepareRequest, MintAction.confirmPrompt],
        MintOutcome.cancelled⟩ := by
    simp [NFTMinting.mintNFT, hidle, hw, hconn, hcan, hprep, hdecl]
  exact ⟨hmain, by rw [hmain]; decide⟩

theorem NFTMinting.decline_confirmation_idle_C6_witness :
    NFTMinting.mintNFT ⟨false⟩
        ⟨some ⟨true, some "0xAB".data, some targetChainId, true⟩, "0xab".data,
          PrepareResult.response true, false, SubmitResult.thrown,
          fun _ => FetchResult.ok TxStatusResp.pending⟩ =
      ⟨⟨false⟩, [MintAction.prepareRequest, MintAction.confirmPrompt],
        MintOutcome.cancelled⟩ ∧
    (NFTMinting.mintNFT ⟨false⟩
        ⟨some ⟨true, some "0xAB".data, some targetChainId, true⟩, "0xab".data,
          PrepareResult.response true, false, SubmitResult.thrown,
          fun _ => FetchResult.ok TxStatusResp.pending⟩).actions.count
        MintAction.submitTx = 0 :=
  NFTMinting.decline_confirmation_idle_C6 ⟨false⟩ _ _ rfl rfl rfl (by decide) rfl rfl

/-- Claim C7 as stated is refuted by the truthiness test of the source: at a
session that is connected and on the target chain with the empty string as
its current account, and the empty string as the target account — which the
current account case-insensitively equals — `canUserMint` still evaluates
falsy, because `this.currentAccount &&` rejects the empty string as well as
null, so the claimed biconditional fails at this input. -/
theorem WalletConnection.canUserMint_empty_account_C7_cex :
    ¬ (WalletConnection.canUserMint ⟨true, some [], some targetChainId, true⟩ [] = true ↔
        ((⟨true, some [], some targetChainId, true⟩ : WalletConnection).isConnected = true ∧
          ∃ acc,
            (⟨true, some [], some targetChainId, true⟩ :
              WalletConnection).currentAccount = some acc ∧
            toLowerCase acc = toLowerCase [] ∧
            (⟨true, some [], some targetChainId, true⟩ :
              WalletConnection).chainId = some targetChainId)) := by
  intro h
  have hmint := h.mpr ⟨rfl, [], rfl, rfl, rfl⟩
  exact absurd hmint (by decide)

/-- Claim C7, amended: `canUserMint(targetAccount)` is true iff the session
is connected, some non-empty (truthy) current account is stored whose
lower-cased form equals the lower-cased target account, and the stored chain
id is the fixed target chain id; and it is false whenever the session is
disconnected, regardless of the remaining fields. -/
theorem WalletConnection.canUserMint_spec_amended_C7 (self : WalletConnection) (t : JSString) :
    (self.canUserMint t = true ↔
      self.isConnected = true ∧
        ∃ acc, self.currentAccount = some acc ∧ acc ≠ [] ∧
          toLowerCase acc = toLowerCase t ∧
          self.chainId = some targetChainId) ∧
    (self.isConnected = false → self.canUserMint t = false) := by
  obtain ⟨conn, acct, chain, prov⟩ := self
  constructor
  · cases acct with
    | none =>
      simp [WalletConnection.canUserMint, WalletConnection.isOnCorrectNetwork]
    | some acc =>
      simp [WalletConnection.canUserMint, WalletConnection.isOnCorrectNetwork,
        Bool.and_eq_true, and_assoc]
  · intro h
    subst h
    simp [WalletConnection.canUserMint]

theorem WalletConnection.canUserMint_spec_amended_C7_witness :
    WalletConnection.canUserMint ⟨true, some "0xAB".data, some targetChainId, true⟩
      "0xab".data = true ∧
    WalletConnection.canUserMint ⟨false, some "0xab".data, some targetChainId, true⟩
      "0xab".data = false :=
  ⟨(WalletConnection.canUserMint_spec_amended_C7 _ _).1.mpr
      ⟨rfl, "0xAB".data, rfl, by decide, by decide, rfl⟩,
   (WalletConnection.canUserMint_spec_amended_C7 _ _).2 rfl⟩

/-- Claim C8: when the current chain differs from the target and the switch
request throws the distinguished unrecognized-chain code 4902,
`ensureCorrectNetwork` issues exactly one add-network request and exactly
one (the original) switch request; on any other switch error code it returns
failure without ever issuing an add-network request. -/
theorem WalletConnection.ensure_network_unrecognized_chain_C8
    (self : WalletConnection) (env : NetEnv) (code : Int)
    (hprov : self.provider = true)
    (hdiff : env.currentChainId ≠ targetChainId)
    (hswitch : env.switchResult = RpcOutcome.err code) :
    (code = 4902 →
      (self.ensureCorrectNetwork env).2.count NetAction.addRequest = 1 ∧
      (self.ensureCorrectNetwork env).2.count NetAction.switchRequest = 1) ∧
    (code ≠ 4902 →
      (self.ensureCorrectNetwork env).1 = false ∧
      (self.ensureCorrectNetwork env).2.count NetAction.addRequest = 0) := by
  unfold WalletConnection.ensureCorrectNetwork
  rw [hprov, hswitch]
  simp only [Bool.not_true, Bool.false_eq_true, if_false, if_neg hdiff]
  constructor
  · intro hcode
    rw [if_pos hcode]
    cases env.addResult with
    | ok => exact ⟨rfl, rfl⟩
    | err c => exact ⟨rfl, rfl⟩
  · intro hcode
    rw [if_neg hcode]
    exact ⟨rfl, by decide⟩

theorem WalletConnection.ensure_network_unrecognized_chain_C8_witness :
    ((4902 : Int) = 4902 →
      ((WalletConnection.ensureCorrectNetwork
          ⟨false, none, none, true⟩
          ⟨"0x1".data, RpcOutcome.err 4902, RpcOutcome.ok⟩).2.count
        NetAction.addRequest = 1 ∧
       (WalletConnection.ensureCorrectNetwork
          ⟨false, none, none, true⟩
          ⟨"0x1".data, RpcOutcome.err 4902, RpcOutcome.ok⟩).2.count
        NetAction.switchRequest = 1)) ∧
    ((4001 : Int) ≠ 4902 →
      ((WalletConnection.ensureCorrectNetwork
          ⟨false, none, none, true⟩
          ⟨"0x1".data, RpcOutcome.err 4001, RpcOutcome.ok⟩).1 = false ∧
       (WalletConnection.ensureCorrectNetwork
          ⟨false, none, none, true⟩
          ⟨"0x1".data, RpcOutcome.err 4001, RpcOutcome.ok⟩).2.count
        NetAction.addRequest = 0)) :=
  ⟨(WalletConnection.ensure_network_unrecognized_chain_C8 _ _ 4902 rfl
      (by decide) rfl).1,
   (WalletConnection.ensure_network_unrecognized_chain_C8 _ _ 4001 rfl
      (by decide) rfl).2⟩

theorem jsSlice_take_six (s : JSString) : jsSlice s 0 (some 6) = s.take 6 := by
  unfold jsSlice
  simp only
  have hb : ¬ ((0 : Int) < 0) := by omega
  have he : ¬ ((6 : Int) < 0) := by omega
  rw [if_neg hb, if_neg he]
  have h0 : (min (0 : Int) (s.length : Int)).toNat = 0 := by omega
  have h6 : (min (6 : Int) (s.length : Int)).toNat = min 6 s.length := by omega
  rw [h0, h6, List.drop_zero]
  rcases Nat.le_total 6 s.length with h | h
  · rw [Nat.min_eq_left h]
  · rw [Nat.min_eq_right h, List.take_length, List.take_of_length_le h]

theorem jsSlice_last_four (s : JSString) : jsSlice s (-4) none = s.drop (s.length - 4) := by
  unfold jsSlice
  simp only
  have hb : ((-4 : Int) < 0) := by omega
  rw [if_pos hb]
  have hlen : ((s.length : Int)).toNat = s.length := by omega
  have hmax : (max ((s.length : Int) + -4) 0).toNat = s.length - 4 := by omega
  rw [hlen, hmax, List.take_length]

/-- Claim C9 as stated is refuted by the frontend implementation: the claim
requires `formatAddress` to return a string shorter than 10 characters
unchanged, but `WalletConnection.formatAddress` has no minimum-length guard,
so on the claim's own example input `"0x1"` it returns `"0x1...0x1"` instead
of `"0x1"`. -/
theorem WalletConnection.formatAddress_short_input_C9_cex :
    WalletConnection.formatAddress (some "0x1".data) = "0x1...0x1".data ∧
    WalletConnection.formatAddress (some "0x1".data) ≠ "0x1".data := by
  constructor
  · decide
  · decide

/-- Claim C9, amended: the legacy `MandalaApp.formatAddress` behaves as the
claim states — null and strings shorter than 10 characters pass through
unchanged, and otherwise the result is the first 6 characters, a literal
ellipsis, and the last 4 characters, as on the claim's two examples. The
frontend `WalletConnection.formatAddress` instead returns the empty string
on null or empty input and applies the same truncation to every non-empty
string, with no minimum-length guard, so `formatAddress("0x1")` there yields
`"0x1...0x1"`. -/
theorem formatAddress_behaviour_C9 (s : JSString) :
    MandalaApp.formatAddress none = none ∧
    WalletConnection.formatAddress none = [] ∧
    (s.length < 10 → MandalaApp.formatAddress (some s) = some s) ∧
    (10 ≤ s.length →
      MandalaApp.formatAddress (some s) =
        some (s.take 6 ++ "...".data ++ s.drop (s.length - 4))) ∧
    (s ≠ [] →
      WalletConnection.formatAddress (some s) =
        s.take 6 ++ "...".data ++ s.drop (s.length - 4)) ∧
    MandalaApp.formatAddress (some "0x1234567890abcdef1234567890abcdef12345678".data) =
      some "0x1234...5678".data ∧
    MandalaApp.formatAddress (some "0x1".data) = some "0x1".data := by
  refine ⟨rfl, rfl, ?_, ?_, ?_, by decide, by decide⟩
  · intro h
    simp only [MandalaApp.formatAddress]
    have : (s.isEmpty || decide (s.length < 10)) = true := by
      simp [h]
    rw [if_pos this]
  · intro h
    simp only [MandalaApp.formatAddress]
    have : ¬ ((s.isEmpty || decide (s.length < 10)) = true) := by
      simp only [Bool.or_eq_true, List.isEmpty_iff, decide_eq_true_eq]
      rintro (h1 | h2)
      · subst h1; simp at h
      · omega
    rw [if_neg this, jsSlice_take_six, jsSlice_last_four]
  · intro h
    simp only [WalletConnection.formatAddress]
    have : ¬ (s.isEmpty = true) := by
      simp only [List.isEmpty_iff]
      exact h
    rw [if_neg this, jsSlice_take_six, jsSlice_last_four]

theorem formatAddress_behaviour_C9_witness :
    MandalaApp.formatAddress (some "0x1".data) = some "0x1".data ∧
    WalletConnection.formatAddress (some "0x1".data) =
      ("0x1".data).take 6 ++ "...".data ++ ("0x1".data).drop (("0x1".data).length - 4) :=
  ⟨(formatAddress_behaviour_C9 "0x1".data).2.2.1 (by decide),
   (formatAddress_behaviour_C9 "0x1".data).2.2.2.2.1 (by decide)⟩

/-- Claim C10: after `disconnectWallet` has cleared the stored provider
reference, every `connectWallet` call fails even while `window.ethereum` is
still present: the install check passes, but `this.provider.request` is a
null dereference whose thrown TypeError the handler reports as an error,
returning false and leaving the session — including the cleared provider —
exactly as it was, so each further call fails the same way. -/
theorem WalletConnection.connect_after_disconnect_fails_C10
    (st : WalletConnection) (env env2 : HostEnv)
    (h : env.ethereumPresent = true)
    (h2 : env2.ethereumPresent = true) :
    (st.disconnectWallet).connectWallet env =
      ⟨false, true, st.disconnectWallet⟩ ∧
    ((st.disconnectWallet).connectWallet env).state.connectWallet env2 =
      ⟨false, true, st.disconnectWallet⟩ := by
  have hone : (st.disconnectWallet).connectWallet env =
      ⟨false, true, st.disconnectWallet⟩ := by
    unfold WalletConnection.connectWallet WalletConnection.disconnectWallet
    rw [h]
    simp
  refine ⟨hone, ?_⟩
  rw [hone]
  unfold WalletConnection.connectWallet WalletConnection.disconnectWallet
  rw [h2]
  simp

theorem WalletConnection.connect_after_disconnect_fails_C10_witness :
    (WalletConnection.disconnectWallet
        ⟨true, some "0xab".data, some targetChainId, true⟩).connectWallet
        ⟨true, Except.ok ["0xab".data], "0x13882".data,
          ⟨"0x13882".data, RpcOutcome.ok, RpcOutcome.ok⟩⟩ =
      ⟨false, true,
        WalletConnection.disconnectWallet
          ⟨true, some "0xab".data, some targetChainId, true⟩⟩ ∧
    ((WalletConnection.disconnectWallet
        ⟨true, some "0xab".data, some targetChainId, true⟩).connectWallet
        ⟨true, Except.ok ["0xab".data], "0x13882".data,
          ⟨"0x13882".data, RpcOutcome.ok, RpcOutcome.ok⟩⟩).state.connectWallet
        ⟨true, Except.ok ["0xab".data], "0x13882".data,
          ⟨"0x13882".data, RpcOutcome.ok, RpcOutcome.ok⟩⟩ =
      ⟨false, true,
        WalletConnection.disconnectWallet
          ⟨true, some "0xab".data, some targetChainId, true⟩⟩ :=
  WalletConnection.connect_after_disconnect_fails_C10 _ _ _ rfl rfl
